import Mathlib

/-!
Verification of the room coordinator of ShreckedRoulette
(`src/backend/src/index.js`, Durable Object `IPRouletteGame`) and the wheel
logic of its client (`src/frontend/src/pages/Game.tsx`), as a shallow
embedding in Lean 4.

Modelling conventions:
* JS machine integers and array indices are `Nat`; `crypto.randomUUID()` is
  modelled by a fresh-id counter (`nextUserId`), since only freshness matters.
* `Math.random()`-derived quantities are oracle parameters of the functions
  that draw them: `sel` stands for `Math.floor(Math.random() * len)` and
  `rot` for the `Math.floor(Math.random() * k)` summand of the rotation
  count.  JS float arithmetic on angles is modelled over `ℚ`.
* A `setTimeout` callback is modelled as a pending-timer record holding
  exactly the data the JS closure captures; the event `fire` runs the
  earliest pending callback.
* `broadcastMessage` iterates over live sessions and sends the same
  envelope to each; the model records each broadcast event once in the
  ordered output trace (per-recipient fan-out carries no extra state).
* The durable storage (`state.storage`) is a four-field snapshot; absent
  keys are `none`.  Loading reproduces the constructor's `(await get) || d`
  expressions, including JS falsiness (`0 || null`, `''` falsy).
* A throwing `saveState` (persistence failure) is modelled by the `ok`
  flag of each handler: `ok = false` truncates the handler at its first
  `await this.saveState()`, exactly as the exception would (caught by the
  `try`/`catch` of `webSocketMessage`).
-/

/-- A roster entry, `{ id, username, ip }` as pushed by the `join` handler. -/
structure User where
  id : Nat
  username : String
  ip : String
deriving DecidableEq

/-- A live session record, `{ ip, id?, username? }` as kept in `this.sessions`. -/
structure Session where
  ip : String
  id : Option Nat
  username : Option String
deriving DecidableEq

/-- The in-memory mutable fields of the Durable Object. -/
structure Room where
  users : List User
  currentPlayerIndex : Option Nat
  gameInProgress : Bool
  revealedUsers : List Nat
deriving DecidableEq

/-- The durable storage snapshot: the four keys written by `saveState`,
`none` when a key is absent. -/
structure Store where
  users : Option (List User)
  currentPlayerIndex : Option (Option Nat)
  gameInProgress : Option Bool
  revealedUsers : Option (List Nat)
deriving DecidableEq

/-- Data captured by the `setTimeout` closure armed by `spinWheel`:
the fields of `selectedUser` that the callback reads. -/
structure PendingReveal where
  playerId : Nat
  playerUsername : String
  playerIP : String
deriving DecidableEq

/-- Outbound envelopes (`{event, data}`) emitted by the backend. -/
inductive Msg where
  | gameState (users : List (Nat × String)) (gameInProgress : Bool)
      (currentPlayerIndex : Option Nat) (currentPlayer : Option String)
  | joined (id : Nat) (users : List (Nat × String))
  | userJoined (id : Nat) (username : String)
  | userLeft (id : Nat) (username : Option String)
  | gameStarted
  | gameStopped (reason : String)
  | gameReset (message : String)
  | wheelSpin (selectedUserId : Nat) (selectedUsername : String) (totalRot : ℚ)
  | ipRevealed (playerId : Nat) (playerUsername : String) (playerIP : String)
deriving DecidableEq

/-- The whole-system state: Durable Object memory, durable storage,
live sessions (keyed by an abstract connection id), pending reveal
timers in arming order, and the fresh-id counter. -/
structure Sys where
  room : Room
  store : Store
  sessions : List (Nat × Session)
  timers : List PendingReveal
  nextUserId : Nat
deriving DecidableEq

/-- `this.sessions.get(ws)`. -/
def getSession (ss : List (Nat × Session)) (ws : Nat) : Option Session :=
  (ss.find? (fun p => p.1 == ws)).map (fun p => p.2)

/-- `this.sessions.set(ws, s)`: replace the binding if present, else add it. -/
def setSession (ss : List (Nat × Session)) (ws : Nat) (s : Session) :
    List (Nat × Session) :=
  if ss.any (fun p => p.1 == ws) then
    ss.map (fun p => if p.1 == ws then (ws, s) else p)
  else ss ++ [(ws, s)]

/-- `this.sessions.delete(ws)`. -/
def delSession (ss : List (Nat × Session)) (ws : Nat) : List (Nat × Session) :=
  ss.filter (fun p => p.1 != ws)

/-- `saveState()`: `storage.put` of all four fields (lines 22-27). -/
def saveState (r : Room) : Store :=
  { users := some r.users
  , currentPlayerIndex := some r.currentPlayerIndex
  , gameInProgress := some r.gameInProgress
  , revealedUsers := some r.revealedUsers }

/-- `(await storage.get('currentPlayerIndex')) || null`:
a stored `0` is falsy in JS, so it loads back as `null`. -/
def loadIdx : Option (Option Nat) → Option Nat
  | none => none
  | some none => none
  | some (some 0) => none
  | some (some i) => some i

/-- The constructor's `blockConcurrencyWhile` loads (lines 9-14):
each field is `(await storage.get(k)) || default` (a stored empty list is
truthy in JS, so it loads back as itself). -/
def loadRoom (st : Store) : Room :=
  { users := st.users.getD []
  , currentPlayerIndex := loadIdx st.currentPlayerIndex
  , gameInProgress := st.gameInProgress.getD false
  , revealedUsers := st.revealedUsers.getD [] }

/-- `handleSession` (lines 44-64): record the session with the client IP and
send the current game state to the new connection. -/
def connectOp (sys : Sys) (ws : Nat) (ip : String) : Sys × List Msg :=
  let sessions' := setSession sys.sessions ws { ip := ip, id := none, username := none }
  let currentPlayer :=
    sys.room.currentPlayerIndex.bind
      (fun i => (sys.room.users[i]?).map (fun u => u.username))
  ({ sys with sessions := sessions' },
   [Msg.gameState (sys.room.users.map (fun u => (u.id, u.username)))
      sys.room.gameInProgress sys.room.currentPlayerIndex currentPlayer])

/-- `handlePlayerLeaving` (lines 88-109), called with the leaving session
after the roster has been filtered.  In the first branch
`moveToNextPlayer()` is an explicit no-op (lines 270-272), so only the
`currentPlayerIndex` clamp is an effect; the session argument is therefore
not needed by the model. -/
def handlePlayerLeaving (r : Room) : Room × List Msg :=
  if r.gameInProgress ∧ r.currentPlayerIndex.isSome ∧ 0 < r.users.length then
    let cpi := match r.currentPlayerIndex with
      | some i => if r.users.length ≤ i then some 0 else some i
      | none => none
    ({ r with currentPlayerIndex := cpi }, [])
  else if r.users.length < 4 ∧ r.gameInProgress then
    ({ r with gameInProgress := false, currentPlayerIndex := none },
     [Msg.gameStopped "Not enough players"])
  else (r, [])

/-- `webSocketClose` (lines 66-86).  `ok = false` models `saveState`
throwing: the `userLeft` broadcast and `handlePlayerLeaving` have already
run, and `sessions.delete(ws)` (after the `await`) is never reached. -/
def closeOp (ok : Bool) (sys : Sys) (ws : Nat) : Sys × List Msg :=
  match getSession sys.sessions ws with
  | some s =>
    match s.id with
    | some uid =>
      let users1 := sys.room.users.filter (fun u => u.id != uid)
      let pr := handlePlayerLeaving { sys.room with users := users1 }
      if ok then
        ({ sys with room := pr.1, store := saveState pr.1,
                    sessions := delSession sys.sessions ws },
         Msg.userLeft uid s.username :: pr.2)
      else
        ({ sys with room := pr.1 }, Msg.userLeft uid s.username :: pr.2)
    | none => ({ sys with sessions := delSession sys.sessions ws }, [])
  | none => ({ sys with sessions := delSession sys.sessions ws }, [])

/-- The `join` case of `webSocketMessage` (lines 122-173), including the
`startGame` call (lines 252-262) when the roster reaches 4 with no game in
progress.  `ok = false` models the first `await this.saveState()` throwing:
the push and the session update have happened, but no message is sent and
`startGame` is never reached (exception caught at line 247). -/
def joinOp (ok : Bool) (sys : Sys) (ws : Nat) (username : String) : Sys × List Msg :=
  if username = "" then (sys, [])
  else
    let session : Session :=
      (getSession sys.sessions ws).getD { ip := "", id := none, username := none }
    let uid : Nat := sys.nextUserId
    let session' : Session := { session with id := some uid, username := some username }
    let sessions' : List (Nat × Session) := setSession sys.sessions ws session'
    let user : User := { id := uid, username := username, ip := session.ip }
    let room1 : Room := { sys.room with users := sys.room.users ++ [user] }
    if ok then
      let joinedMsg : Msg := Msg.joined uid (room1.users.map (fun u => (u.id, u.username)))
      if decide (4 ≤ room1.users.length) && !room1.gameInProgress then
        let room2 := { room1 with gameInProgress := true, currentPlayerIndex := none,
                                  revealedUsers := [] }
        ({ sys with room := room2, store := saveState room2, sessions := sessions',
                    nextUserId := uid + 1 },
         [joinedMsg, Msg.userJoined uid username, Msg.gameStarted])
      else
        ({ sys with room := room1, store := saveState room1, sessions := sessions',
                    nextUserId := uid + 1 },
         [joinedMsg, Msg.userJoined uid username])
    else
      ({ sys with room := room1, sessions := sessions', nextUserId := uid + 1 }, [])

/-- The `clearPlayers` case of `webSocketMessage` (lines 175-190).
`ok = false` models `saveState` throwing after the in-memory fields were
already overwritten: no `gameReset` broadcast is emitted. -/
def clearPlayersOp (ok : Bool) (sys : Sys) : Sys × List Msg :=
  let room1 := { sys.room with users := [], gameInProgress := false,
                               currentPlayerIndex := none, revealedUsers := [] }
  if ok then
    ({ sys with room := room1, store := saveState room1 },
     [Msg.gameReset "All players have been cleared from the game"])
  else
    ({ sys with room := room1 }, [])

/-- The `spinWheel` case of `webSocketMessage` (lines 192-240).
`sel` is the oracle for `Math.floor(Math.random() * users.length)` (the
code's own `if (selectedUser)` guard makes an out-of-range draw a no-op);
`rot` is the oracle for `Math.floor(Math.random() * 5)`, so the rotation
count is `10 + rot`.  The `wheelSpin` broadcast precedes the push to
`revealedUsers` and the persist; the reveal timer is armed only after the
persist succeeds, so `ok = false` emits `wheelSpin`, mutates
`revealedUsers`, and arms nothing. -/
def spinOp (ok : Bool) (sys : Sys) (sel rot : Nat) : Sys × List Msg :=
  if sys.room.users.length < 4 then (sys, [])
  else
    match sys.room.users[sel]? with
    | none => (sys, [])
    | some u =>
      let len : ℚ := sys.room.users.length
      let segmentAngle : ℚ := 360 / len
      let segmentCenter : ℚ := (sel : ℚ) * segmentAngle + segmentAngle / 2
      let targetAngle : ℚ := 360 - segmentCenter
      let totalRot : ℚ := ((10 + rot : Nat) : ℚ) * 360 + targetAngle
      let msg := Msg.wheelSpin u.id u.username totalRot
      let room1 := { sys.room with revealedUsers := sys.room.revealedUsers ++ [u.id] }
      if ok then
        ({ sys with room := room1, store := saveState room1,
                    timers := sys.timers ++
                      [{ playerId := u.id, playerUsername := u.username, playerIP := u.ip }] },
         [msg])
      else
        ({ sys with room := room1 }, [msg])

/-- Firing of the earliest armed `setTimeout` callback (lines 230-236):
the callback body only broadcasts `ipRevealed` with the captured fields of
`selectedUser`; it reads no live state and performs no other effect. -/
def fireOp (sys : Sys) : Sys × List Msg :=
  match sys.timers with
  | [] => (sys, [])
  | t :: rest =>
    ({ sys with timers := rest },
     [Msg.ipRevealed t.playerId t.playerUsername t.playerIP])

/-- Externally triggered events of the coordinator.  `leaveEnv` and
`otherEnv` are inbound envelopes whose event names (`'leave'`,
`'ipReveal'`, anything not `'join'`/`'clearPlayers'`/`'spinWheel'`) fall to
the `default` case of the `webSocketMessage` switch, a no-op. -/
inductive Ev where
  | connect (ws : Nat) (ip : String)
  | join (ws : Nat) (username : String)
  | leaveEnv (ws : Nat)
  | otherEnv (ws : Nat) (name : String)
  | clearPlayers (ws : Nat)
  | spin (ws : Nat) (sel rot : Nat)
  | close (ws : Nat)
  | fire
deriving DecidableEq

/-- One event step with all durable writes succeeding. -/
def step (sys : Sys) : Ev → Sys × List Msg
  | Ev.connect ws ip => connectOp sys ws ip
  | Ev.join ws u => joinOp true sys ws u
  | Ev.leaveEnv _ => (sys, [])
  | Ev.otherEnv _ _ => (sys, [])
  | Ev.clearPlayers _ => clearPlayersOp true sys
  | Ev.spin _ sel rot => spinOp true sys sel rot
  | Ev.close ws => closeOp true sys ws
  | Ev.fire => fireOp sys

/-- Run a list of events, concatenating the emitted envelopes. -/
def run (sys : Sys) : List Ev → Sys × List Msg
  | [] => (sys, [])
  | e :: es =>
    let p := step sys e
    let q := run p.1 es
    (q.1, p.2 ++ q.2)

/-- A freshly created room: empty storage, the constructor's defaults. -/
def initStore : Store :=
  { users := none, currentPlayerIndex := none, gameInProgress := none,
    revealedUsers := none }

/-- The initial system state of a fresh room. -/
def initSys : Sys :=
  { room := loadRoom initStore, store := initStore, sessions := [], timers := [],
    nextUserId := 0 }

/-- Number of `gameStarted` envelopes in a trace. -/
def countGS (ms : List Msg) : Nat :=
  (ms.filter (fun m => m == Msg.gameStarted)).length

/-!
Client model (`src/frontend/src/pages/Game.tsx`).  The React `useState`
setters are modelled as functional record updates on `CState`; the event
log keeps only the message strings (timestamps and CSS classes are
presentation-only).  `navigate("/")` is modelled by the `navHome` flag.
-/

/-- The optional `data` fields of an inbound envelope as typed by the
client's `WebSocketMessage` interface (plus `currentPlayer`, which the
handler reads from `gameState`/`gameStarted` payloads). -/
structure EnvData where
  id : Option Nat
  users : Option (List (Nat × String))
  username : Option String
  gameInProgress : Option Bool
  currentPlayer : Option String
  playerUsername : Option String
  playerIP : Option String
  reason : Option String
  message : Option String
deriving DecidableEq

/-- An `EnvData` with every field absent. -/
def emptyData : EnvData :=
  { id := none, users := none, username := none, gameInProgress := none,
    currentPlayer := none, playerUsername := none, playerIP := none,
    reason := none, message := none }

/-- The client component state relevant to the wheel and roster. -/
structure CState where
  myId : Option Nat
  username : String
  users : List (Nat × String)
  gameInProgress : Bool
  joinedGame : Bool
  currentPlayer : Option String
  isSpinning : Bool
  wheelRotation : ℚ
  revealedIP : Option String
  selectedUsername : Option String
  log : List String
  navHome : Bool
deriving DecidableEq

/-- JS truthiness for an optional string field: absent and `""` are falsy. -/
def truthyStr : Option String → Option String
  | none => none
  | some s => if s = "" then none else some s

/-- `updateGameStatus` (Game.tsx lines 180-186). -/
def updateGameStatus (c : CState) (cp : Option String) : CState :=
  { c with currentPlayer := truthyStr cp }

/-- `logEvent` (Game.tsx lines 188-191), keeping only the message text. -/
def logEvent (c : CState) (m : String) : CState :=
  { c with log := c.log ++ [m] }

/-- Envelopes the client sends from `handleSpinWheel`: only `ipReveal`.
The shipped client never sends a `spinWheel` envelope. -/
inductive ClientOut where
  | ipReveal (userId : Nat)
deriving DecidableEq

/-- `handleWebSocketMessage` (Game.tsx lines 99-178): the `switch` on the
envelope's event name.  Note there is no `wheelSpin` case: that name falls
to the `default` branch, which only logs.  Ids are UUID strings in JS and
hence truthy whenever present. -/
def clientHandleMessage (c : CState) (ev : String) (d : EnvData) : CState :=
  if ev = "joined" then
    let c1 := { c with myId := match d.id with | some i => some i | none => c.myId,
                       users := d.users.getD c.users, joinedGame := true }
    logEvent c1 ("You joined as " ++ c.username)
  else if ev = "gameState" then
    let c1 := { c with users := d.users.getD c.users,
                       gameInProgress := d.gameInProgress.getD c.gameInProgress }
    updateGameStatus c1 d.currentPlayer
  else if ev = "userJoined" then
    match d.id, d.username with
    | some i, some u =>
      logEvent { c with users := c.users ++ [(i, u)] } (u ++ " joined the game")
    | _, _ => c
  else if ev = "userLeft" then
    let users' := match d.id with
      | some i => c.users.filter (fun p => p.1 != i)
      | none => c.users
    logEvent { c with users := users' } ((d.username.getD "undefined") ++ " left the game")
  else if ev = "gameStarted" then
    updateGameStatus (logEvent { c with gameInProgress := true } "Game started!")
      d.currentPlayer
  else if ev = "playerTurn" then
    updateGameStatus
      (logEvent c ("It is " ++ (d.playerUsername.getD "undefined") ++ "'s turn..."))
      d.playerUsername
  else if ev = "ipRevealed" then
    let c1 := logEvent c ((d.playerUsername.getD "undefined")
      ++ "'s IP address was revealed: " ++ (d.playerIP.getD "undefined"))
    let c2 := match truthyStr d.playerIP with
      | some s => { c1 with revealedIP := some s }
      | none => c1
    match truthyStr d.playerUsername with
    | some s => { c2 with selectedUsername := some s }
    | none => c2
  else if ev = "ipSafe" then
    logEvent c ((d.playerUsername.getD "undefined") ++ "'s IP address remains hidden")
  else if ev = "gameStopped" then
    updateGameStatus
      (logEvent { c with gameInProgress := false }
        ("Game stopped: " ++ (d.reason.getD "undefined")))
      none
  else if ev = "gameReset" then
    { (updateGameStatus { c with users := [], gameInProgress := false } none) with
        log := c.log ++ ["Game reset: " ++ (d.message.getD "undefined")],
        navHome := true }
  else
    logEvent c ("Unknown event: " ++ ev)

/-- `handleSpinWheel` (Game.tsx lines 209-284), with the client's own
randomness as oracle parameters: `sel` for
`Math.floor(Math.random() * users.length)`, `rot` for
`Math.floor(Math.random() * 3)` (so the rotation count is `5 + rot`), and
`mock` for the mock IP string built from four further `Math.random()`
draws.  The cumulative effect of the `setTimeout` chain, assuming no
server envelope interleaves: the wheel rotation is set to the locally
computed total, `isSpinning` ends false, an `ipReveal` envelope carrying
the locally selected user id is sent, `selectedUsername` is set locally,
and — because the 2-second fallback closure tests the `revealedIP` value
captured when the handler was created — a mock random IP is shown whenever
that captured value was null. -/
def clientHandleSpinWheel (c : CState) (sel rot : Nat) (mock : String) :
    CState × List ClientOut :=
  if c.users.length < 4 then (c, [])
  else if c.isSpinning then (c, [])
  else
    match c.users[sel]? with
    | none => (c, [])
    | some selected =>
      let rotations : ℚ := ((5 + rot : Nat) : ℚ)
      let len : ℚ := c.users.length
      let segmentAngle : ℚ := 360 / len
      let segmentCenter : ℚ := (sel : ℚ) * segmentAngle + segmentAngle / 2
      let targetAngle : ℚ := 360 - segmentCenter
      let totalRot : ℚ := rotations * 360 + targetAngle
      ({ c with isSpinning := false,
                wheelRotation := totalRot,
                selectedUsername := some selected.2,
                revealedIP := if c.revealedIP = none then some mock else none },
       [ClientOut.ipReveal selected.1])

/-!
Concrete fixtures: four clients connect and join, which activates the game.
User ids are allocated 0,1,2,3 in join order.
-/

/-- Four connects interleaved with four joins. -/
def evs4 : List Ev :=
  [Ev.connect 0 "ip0", Ev.join 0 "a", Ev.connect 1 "ip1", Ev.join 1 "b",
   Ev.connect 2 "ip2", Ev.join 2 "c", Ev.connect 3 "ip3", Ev.join 3 "d"]

/-- The room state after `evs4`: roster a,b,c,d and a game in progress. -/
def sys4 : Sys := (run initSys evs4).1

/-- Selection data of a `wheelSpin` envelope (id and name of the drawn
player), `none` for other envelopes. -/
def spinSel : Msg → Option (Nat × String)
  | Msg.wheelSpin i u _ => some (i, u)
  | _ => none

/-- Payload of an `ipRevealed` envelope, `none` for other envelopes. -/
def revealSel : Msg → Option (Nat × String × String)
  | Msg.ipRevealed i u ip => some (i, u, ip)
  | _ => none

/-- A fresh room with one pending reveal timer (as if armed by an earlier
spin whose other traces are irrelevant). -/
def sysT : Sys :=
  { room := loadRoom initStore, store := initStore, sessions := [],
    timers := [{ playerId := 7, playerUsername := "g", playerIP := "ip7" }],
    nextUserId := 0 }

/-- A room with three joined players, no game in progress, and a leftover
revealed-history entry. -/
def sysW : Sys :=
  { room := { users := [{ id := 0, username := "a", ip := "ipa" },
                        { id := 1, username := "b", ip := "ipb" },
                        { id := 2, username := "c", ip := "ipc" }],
              currentPlayerIndex := none, gameInProgress := false,
              revealedUsers := [7] },
    store := initStore, sessions := [], timers := [], nextUserId := 3 }

/-- A client that has joined as "a" and sees the four-player roster. -/
def cState4 : CState :=
  { myId := some 0, username := "a",
    users := [(0, "a"), (1, "b"), (2, "c"), (3, "d")],
    gameInProgress := true, joinedGame := true, currentPlayer := none,
    isSpinning := false, wheelRotation := 0, revealedIP := none,
    selectedUsername := none, log := [], navHome := false }

/-!
Theorems.  Claims C1-C10 of the specification are settled below; helper
lemmas come first.
-/

/-- Counting `gameStarted` distributes over trace concatenation. -/
theorem countGS_append (ms ns : List Msg) :
    countGS (ms ++ ns) = countGS ms + countGS ns := by
  simp [countGS, List.filter_append]

/-- A successful `saveState` stores exactly the in-memory roster. -/
theorem loadRoom_saveState_users (r : Room) :
    (loadRoom (saveState r)).users = r.users := rfl

/-- Claim C1, counterexample: four players join, a spin arms the reveal
timer, `clearPlayers` is processed before it fires — and when the timer
then fires, the stale `ipRevealed` for the drawn player (id 0, "a", origin
"ip0") is still broadcast, right after the `gameReset`.  The trace also
confirms the stale draw was exactly player 0.  There is no epoch check. -/
theorem epoch_cancellation_fails :
    (run initSys (evs4 ++ [Ev.spin 0 0 0, Ev.clearPlayers 0, Ev.fire])).2.drop 14 =
      [Msg.gameReset "All players have been cleared from the game",
       Msg.ipRevealed 0 "a" "ip0"] ∧
    (run initSys (evs4 ++ [Ev.spin 0 0 0, Ev.clearPlayers 0, Ev.fire])).2.filterMap
      spinSel = [(0, "a")] := by
  decide

/-- Claim C1, amended: the reveal timer has no epoch or cancellation
check.  `clearPlayers` leaves any armed timer in place, and when the timer
fires it unconditionally broadcasts `ipRevealed` with the player data
captured at spin time. -/
theorem stale_reveal_fires_after_reset (sys : Sys) (t : PendingReveal)
    (rest : List PendingReveal) (h : sys.timers = t :: rest) :
    (clearPlayersOp true sys).1.timers = t :: rest ∧
    (fireOp (clearPlayersOp true sys).1).2 =
      [Msg.ipRevealed t.playerId t.playerUsername t.playerIP] := by
  constructor
  · simp [clearPlayersOp, h]
  · simp [clearPlayersOp, fireOp, h]

/-- Claim C1, witness: the amended theorem applied to a room with one
armed timer. -/
theorem stale_reveal_fires_after_reset_witness :
    (fireOp (clearPlayersOp true sysT).1).2 = [Msg.ipRevealed 7 "g" "ip7"] :=
  (stale_reveal_fires_after_reset sysT
    { playerId := 7, playerUsername := "g", playerIP := "ip7" } [] rfl).2

/-- Claim C2, counterexample: when the durable write fails, the `join`
handler has already pushed the new player onto the in-memory roster, and
the `spinWheel` handler has already broadcast `wheelSpin` and appended to
`revealedUsers` — the in-memory state is changed and a broadcast was
emitted, contradicting the claimed validate-persist-mutate-broadcast
ordering. -/
theorem persist_ordering_fails :
    (joinOp false sys4 9 "e").1.room.users ≠ sys4.room.users ∧
    (spinOp false sys4 0 0).2.filterMap spinSel = [(0, "a")] ∧
    (spinOp false sys4 0 0).1.room.revealedUsers = [0] ∧
    (spinOp false sys4 0 0).1.store = sys4.store := by
  decide

/-- Claim C2, amended: the code mutates in memory before persisting.  On
a persistence failure, `join` and `clearPlayers` keep their in-memory
mutation, leave the store unchanged and emit nothing; `spinWheel` has
already emitted the `wheelSpin` broadcast and appended to
`revealedUsers`, leaves the store unchanged, and arms no timer. -/
theorem mutate_before_persist (sys : Sys) (ws : Nat) (u : String) (sel rot : Nat) :
    (u ≠ "" →
      (joinOp false sys ws u).2 = [] ∧
      (joinOp false sys ws u).1.store = sys.store ∧
      (joinOp false sys ws u).1.room.users =
        sys.room.users ++
          [{ id := sys.nextUserId, username := u,
             ip := ((getSession sys.sessions ws).getD
               { ip := "", id := none, username := none }).ip }]) ∧
    ((clearPlayersOp false sys).2 = [] ∧
     (clearPlayersOp false sys).1.store = sys.store ∧
     (clearPlayersOp false sys).1.room.users = []) ∧
    (∀ u', sys.room.users[sel]? = some u' → ¬ sys.room.users.length < 4 →
      (∃ q, (spinOp false sys sel rot).2 = [Msg.wheelSpin u'.id u'.username q]) ∧
      (spinOp false sys sel rot).1.store = sys.store ∧
      (spinOp false sys sel rot).1.timers = sys.timers ∧
      (spinOp false sys sel rot).1.room.revealedUsers =
        sys.room.revealedUsers ++ [u'.id]) := by
  refine ⟨?_, ?_, ?_⟩
  · intro hu
    simp [joinOp, hu]
  · simp [clearPlayersOp]
  · intro u' hu' hlen
    exact ⟨⟨_, by simp [spinOp, hu', hlen]; rfl⟩, by simp [spinOp, hu', hlen],
      by simp [spinOp, hu', hlen], by simp [spinOp, hu', hlen]⟩

/-- Claim C2, witness: the amended theorem applied to the four-player
room, for a failing join and a failing spin. -/
theorem mutate_before_persist_witness :
    (joinOp false sys4 9 "e").2 = [] ∧
    (spinOp false sys4 0 0).1.room.revealedUsers =
      sys4.room.revealedUsers ++ [0] := by
  have h := mutate_before_persist sys4 9 "e" 0 0
  refine ⟨(h.1 (by decide)).1, ?_⟩
  exact (h.2.2 { id := 0, username := "a", ip := "ip0" }
    (by decide) (by decide)).2.2.2

/-- Claim C3, code bug: the shipped client computes the selection, the
rotation and even a mock revealed IP from its own local randomness.  With
the same roster and identical server interaction, local draws 0 and 1
select different players and different rotations; the client's only
outbound envelope is `ipReveal` (never `spinWheel`); an inbound
`wheelSpin` envelope falls to the client's `default` branch and changes
none of the wheel state; and the server ignores the client's `ipReveal`
envelope entirely.  This contradicts the single-origin-randomness claim
and the server code's own comment that rotation values are computed
server-side so all clients see the same animation. -/
theorem client_computes_outcome_locally :
    (clientHandleSpinWheel cState4 0 0 "203.0.113.1").1.selectedUsername = some "a" ∧
    (clientHandleSpinWheel cState4 1 0 "203.0.113.2").1.selectedUsername = some "b" ∧
    (clientHandleSpinWheel cState4 0 0 "203.0.113.1").1.wheelRotation ≠
      (clientHandleSpinWheel cState4 1 0 "203.0.113.2").1.wheelRotation ∧
    (clientHandleSpinWheel cState4 0 0 "203.0.113.1").1.revealedIP =
      some "203.0.113.1" ∧
    (clientHandleSpinWheel cState4 0 0 "203.0.113.1").2 = [ClientOut.ipReveal 0] ∧
    (clientHandleMessage cState4 "wheelSpin" emptyData).wheelRotation =
      cState4.wheelRotation ∧
    (clientHandleMessage cState4 "wheelSpin" emptyData).selectedUsername =
      cState4.selectedUsername ∧
    (clientHandleMessage cState4 "wheelSpin" emptyData).users = cState4.users ∧
    step sys4 (Ev.otherEnv 0 "ipReveal") = (sys4, []) := by
  refine ⟨by decide, by decide, ?_, by decide, by decide, rfl, rfl, rfl, by decide⟩
  have h1 : (clientHandleSpinWheel cState4 0 0 "203.0.113.1").1.wheelRotation = 2115 := by
    simp [clientHandleSpinWheel, cState4]
    norm_num
  have h2 : (clientHandleSpinWheel cState4 1 0 "203.0.113.2").1.wheelRotation = 2025 := by
    simp [clientHandleSpinWheel, cState4]
    norm_num
  rw [h1, h2]
  norm_num

/-- Claim C4, counterexample: an inbound `leave` envelope at the
four-player active room is a complete no-op (the switch has no `leave`
case), and after a disconnect drops the roster to three during a spin,
`gameStopped` is broadcast but the armed reveal timer is not cleared —
the stale `ipRevealed` still fires afterwards. -/
theorem leave_and_timer_clearing_fail :
    step sys4 (Ev.leaveEnv 0) = (sys4, []) ∧
    (run initSys (evs4 ++ [Ev.spin 0 0 0, Ev.close 0, Ev.fire])).2.drop 14 =
      [Msg.userLeft 0 (some "a"), Msg.gameStopped "Not enough players",
       Msg.ipRevealed 0 "a" "ip0"] := by
  decide

/-- Claim C4, amended: only a connection close can remove a player.  When
a close removes an attached player and the remaining roster is below 4
while a game is in progress (with `currentPlayerIndex` null, as it always
is in the current flow), the game stops: `gameInProgress` becomes false,
`gameStopped` with reason "Not enough players" is broadcast after
`userLeft`, and pending timers are left untouched; an inbound `leave`
envelope is ignored. -/
theorem close_below_threshold (sys : Sys) (ws : Nat) (s : Session) (uid : Nat)
    (hs : getSession sys.sessions ws = some s) (hid : s.id = some uid)
    (hg : sys.room.gameInProgress = true)
    (hc : sys.room.currentPlayerIndex = none)
    (hlen : (sys.room.users.filter (fun u => u.id != uid)).length < 4) :
    (closeOp true sys ws).1.room.gameInProgress = false ∧
    (closeOp true sys ws).1.room.users =
      sys.room.users.filter (fun u => u.id != uid) ∧
    (closeOp true sys ws).1.room.currentPlayerIndex = none ∧
    (closeOp true sys ws).2 =
      [Msg.userLeft uid s.username, Msg.gameStopped "Not enough players"] ∧
    (closeOp true sys ws).1.timers = sys.timers ∧
    step sys (Ev.leaveEnv ws) = (sys, []) := by
  simp [closeOp, hs, hid, handlePlayerLeaving, hg, hc, hlen, step]

/-- Claim C4, witness: one of the four active players disconnects;
the game stops with the expected broadcast. -/
theorem close_below_threshold_witness :
    (closeOp true sys4 0).1.room.gameInProgress = false ∧
    (closeOp true sys4 0).2 =
      [Msg.userLeft 0 (some "a"), Msg.gameStopped "Not enough players"] := by
  have h := close_below_threshold sys4 0
    { ip := "ip0", id := some 0, username := some "a" } 0
    (by decide) rfl (by decide) (by decide) (by decide)
  exact ⟨h.1, h.2.2.2.1⟩

/-- Claim C5, counterexample: applying `clearPlayers` twice from the
four-player room yields exactly the same system state and the same
broadcast as applying it once — the state is identical in every
component, so no epoch counter is incremented (the Durable Object has no
epoch field at all). -/
theorem reset_has_no_epoch :
    clearPlayersOp true (clearPlayersOp true sys4).1 =
      ((clearPlayersOp true sys4).1, (clearPlayersOp true sys4).2) := by
  decide

/-- Claim C5, amended: from any prior state, `clearPlayers` empties the
roster and the revealed history, stops the game, nulls
`currentPlayerIndex`, broadcasts `gameReset` with its fixed message — and
it is exactly idempotent (no epoch exists to distinguish repetitions). -/
theorem clearPlayers_hard_reset (sys : Sys) :
    (clearPlayersOp true sys).1.room.users = [] ∧
    (clearPlayersOp true sys).1.room.gameInProgress = false ∧
    (clearPlayersOp true sys).1.room.currentPlayerIndex = none ∧
    (clearPlayersOp true sys).1.room.revealedUsers = [] ∧
    (clearPlayersOp true sys).2 =
      [Msg.gameReset "All players have been cleared from the game"] ∧
    clearPlayersOp true (clearPlayersOp true sys).1 =
      ((clearPlayersOp true sys).1, (clearPlayersOp true sys).2) := by
  cases sys with
  | mk room store sessions timers nid =>
    cases room
    simp [clearPlayersOp, saveState]

/-- Claim C6, step lemma: one non-empty-name join grows the roster by
one, activates the game exactly when the new length reaches 4, and emits
`gameStarted` exactly on that join. -/
theorem joinOp_step (sys : Sys) (ws : Nat) (u : String) (hu : u ≠ "")
    (h : sys.room.gameInProgress = decide (4 ≤ sys.room.users.length)) :
    (joinOp true sys ws u).1.room.users.length = sys.room.users.length + 1 ∧
    (joinOp true sys ws u).1.room.gameInProgress =
      decide (4 ≤ sys.room.users.length + 1) ∧
    countGS (joinOp true sys ws u).2 =
      if sys.room.users.length + 1 = 4 then 1 else 0 := by
  by_cases h3 : sys.room.users.length = 3
  · have hg : sys.room.gameInProgress = false := by
      rw [h, h3]
      decide
    simp [joinOp, hu, hg, h3, countGS]
  · by_cases h4 : 4 ≤ sys.room.users.length
    · have hg : sys.room.gameInProgress = true := by
        rw [h]
        simpa using h4
      have h3' : 3 ≤ sys.room.users.length := by omega
      have hne : ¬ (sys.room.users.length + 1 = 4) := by omega
      simp [joinOp, hu, hg, h3', hne, countGS]
    · have hg : sys.room.gameInProgress = false := by
        rw [h]
        simpa using h4
      have h3' : ¬ (3 ≤ sys.room.users.length) := by omega
      have hne : ¬ (sys.room.users.length + 1 = 4) := by omega
      simp [joinOp, hu, hg, h3', hne, countGS]

/-- Claim C6, run lemma: over any sequence of non-empty-name joins from a
state whose `gameInProgress` agrees with its roster size, the number of
`gameStarted` broadcasts is 0 if the game was already running, else 1
exactly when the sequence crosses the threshold. -/
theorem runJoins_countGS (l : List (Nat × String)) :
    ∀ sys : Sys, (∀ p ∈ l, p.2 ≠ "") →
    sys.room.gameInProgress = decide (4 ≤ sys.room.users.length) →
    countGS (run sys (l.map (fun p => Ev.join p.1 p.2))).2 =
      if 4 ≤ sys.room.users.length then 0
      else if 4 ≤ sys.room.users.length + l.length then 1 else 0 := by
  induction l with
  | nil =>
    intro sys _ _
    simp [run, countGS]
    split_ifs <;> omega
  | cons p ps ih =>
    intro sys hne hg
    have hp : p.2 ≠ "" := hne p (by simp)
    have hps : ∀ q ∈ ps, q.2 ≠ "" := fun q hq => hne q (by simp [hq])
    obtain ⟨hlen, hgip, hcnt⟩ := joinOp_step sys p.1 p.2 hp hg
    have step_eq : step sys (Ev.join p.1 p.2) = joinOp true sys p.1 p.2 := rfl
    have hrec := ih (joinOp true sys p.1 p.2).1 hps (by rw [hgip, hlen])
    rw [hlen] at hrec
    simp only [List.map_cons, run, step_eq, countGS_append, hcnt]
    rw [hrec]
    simp only [List.length_cons]
    split_ifs <;> omega

/-- Claim C6: for every sequence of joins with non-empty names starting
from a fresh room, `gameStarted` is broadcast exactly once if the
sequence reaches 4 players, and never with at most 3; applied to every
prefix, this says the transition fires exactly at the 4th join and is
never duplicated by later joins. -/
theorem gameStarted_exactly_once (l : List (Nat × String))
    (h : ∀ p ∈ l, p.2 ≠ "") :
    countGS (run initSys (l.map (fun p => Ev.join p.1 p.2))).2 =
      if 4 ≤ l.length then 1 else 0 := by
  have h0 : initSys.room.users.length = 0 := rfl
  have := runJoins_countGS l initSys h (by rw [h0]; rfl)
  rw [h0] at this
  simpa using this

/-- Claim C6, witness: four named joins produce exactly one
`gameStarted`. -/
theorem gameStarted_exactly_once_witness :
    countGS (run initSys ([((0 : Nat), "a"), (1, "b"), (2, "c"), (3, "d")].map
      (fun p => Ev.join p.1 p.2))).2 = 1 := by
  have := gameStarted_exactly_once [(0, "a"), (1, "b"), (2, "c"), (3, "d")]
    (by decide)
  simpa using this

/-- Claim C7, counterexample: immediately after the spin — with the
reveal timer still armed and no `ipRevealed` broadcast yet — the selected
player's id is already in `revealedUsers`, so the append and persist
happen at spin time, not at fire time; and firing the timer changes no
room state at all (`gameInProgress` stays true — there is no
Spinning-to-Active phase transition). -/
theorem reveal_history_append_at_spin_time :
    (run initSys (evs4 ++ [Ev.spin 0 0 0])).1.room.revealedUsers = [0] ∧
    (run initSys (evs4 ++ [Ev.spin 0 0 0])).1.timers =
      [{ playerId := 0, playerUsername := "a", playerIP := "ip0" }] ∧
    (run initSys (evs4 ++ [Ev.spin 0 0 0])).2.filterMap revealSel = [] ∧
    (run initSys (evs4 ++ [Ev.spin 0 0 0, Ev.fire])).1.room =
      (run initSys (evs4 ++ [Ev.spin 0 0 0])).1.room ∧
    (run initSys (evs4 ++ [Ev.spin 0 0 0, Ev.fire])).1.room.gameInProgress = true := by
  decide

/-- Claim C7, amended: the append to `revealedUsers` and the persist
happen inside the spin handler; when the armed timer later fires it only
broadcasts `ipRevealed` with the data captured at spin time and leaves
room and store untouched. -/
theorem reveal_effects_split (sys : Sys) (sel rot : Nat) (u : User)
    (hu : sys.room.users[sel]? = some u) (hlen : ¬ sys.room.users.length < 4)
    (ht : sys.timers = []) :
    (spinOp true sys sel rot).1.room.revealedUsers =
      sys.room.revealedUsers ++ [u.id] ∧
    (spinOp true sys sel rot).1.store = saveState (spinOp true sys sel rot).1.room ∧
    (spinOp true sys sel rot).1.timers =
      [{ playerId := u.id, playerUsername := u.username, playerIP := u.ip }] ∧
    (fireOp (spinOp true sys sel rot).1).1.room = (spinOp true sys sel rot).1.room ∧
    (fireOp (spinOp true sys sel rot).1).1.store = (spinOp true sys sel rot).1.store ∧
    (fireOp (spinOp true sys sel rot).1).2 =
      [Msg.ipRevealed u.id u.username u.ip] := by
  simp [spinOp, fireOp, hu, hlen, ht, saveState]

/-- Claim C7, witness: the amended theorem at the four-player room. -/
theorem reveal_effects_split_witness :
    (fireOp (spinOp true sys4 0 0).1).2 = [Msg.ipRevealed 0 "a" "ip0"] := by
  have h := reveal_effects_split sys4 0 0 { id := 0, username := "a", ip := "ip0" }
    (by decide) (by decide) (by decide)
  simpa using h.2.2.2.2.2

/-- Claim C8, counterexample: a second `spinWheel` arriving while the
first reveal timer is still pending is processed like any other spin —
a second `wheelSpin` broadcast is emitted and a second timer armed — so a
spin during the Spinning phase is not a silent no-op. -/
theorem spin_while_spinning_not_noop :
    (run initSys (evs4 ++ [Ev.spin 0 0 0, Ev.spin 1 1 0])).2.filterMap spinSel =
      [(0, "a"), (1, "b")] ∧
    (run initSys (evs4 ++ [Ev.spin 0 0 0, Ev.spin 1 1 0])).1.timers.length = 2 := by
  decide

/-- Claim C8, amended: a `spinWheel` with fewer than four players is a
silent no-op (state unchanged, nothing broadcast, nothing armed); the
only precondition checked is the roster size — any in-range draw on a
full roster emits `wheelSpin` and appends a timer regardless of pending
reveals. -/
theorem spin_precondition (sys : Sys) (sel rot : Nat) :
    (sys.room.users.length < 4 → spinOp true sys sel rot = (sys, [])) ∧
    (∀ u, sys.room.users[sel]? = some u → ¬ sys.room.users.length < 4 →
      (∃ q, (spinOp true sys sel rot).2 = [Msg.wheelSpin u.id u.username q]) ∧
      (spinOp true sys sel rot).1.timers =
        sys.timers ++ [{ playerId := u.id, playerUsername := u.username,
                         playerIP := u.ip }]) := by
  constructor
  · intro h
    simp [spinOp, h]
  · intro u hu hlen
    exact ⟨⟨_, by simp [spinOp, hu, hlen]; rfl⟩, by simp [spinOp, hu, hlen]⟩

/-- Claim C8, witness: a spin on the fresh (empty) room is a no-op. -/
theorem spin_precondition_witness :
    spinOp true initSys 0 0 = (initSys, []) :=
  (spin_precondition initSys 0 0).1 (by decide)

/-- Claim C9, step lemma: every event preserves agreement between the
persisted roster and the in-memory roster. -/
theorem step_preserves_roster (sys : Sys) (e : Ev)
    (h : (loadRoom sys.store).users = sys.room.users) :
    (loadRoom (step sys e).1.store).users = (step sys e).1.room.users := by
  cases e with
  | connect ws ip => simpa [step, connectOp] using h
  | join ws u =>
    by_cases hu : u = ""
    · simpa [step, joinOp, hu] using h
    · simp [step, joinOp, hu]
      split
      · simp [loadRoom, saveState]
      · simp [loadRoom, saveState]
  | leaveEnv ws => simpa [step] using h
  | otherEnv ws name => simpa [step] using h
  | clearPlayers ws => simp [step, clearPlayersOp, loadRoom, saveState]
  | spin ws sel rot =>
    simp only [step, spinOp]
    split
    · simpa using h
    · split
      · simpa using h
      · simp [loadRoom, saveState]
  | close ws =>
    simp only [step, closeOp]
    split
    · split
      · simp [loadRoom, saveState]
      · simpa using h
    · simpa using h
  | fire =>
    simp only [step, fireOp]
    split
    · simpa using h
    · simpa using h

/-- Claim C9, run lemma: the roster agreement is an invariant of every
event sequence. -/
theorem run_preserves_roster (evs : List Ev) :
    ∀ sys : Sys, (loadRoom sys.store).users = sys.room.users →
    (loadRoom (run sys evs).1.store).users = (run sys evs).1.room.users := by
  induction evs with
  | nil =>
    intro sys h
    simpa [run] using h
  | cons e es ih =>
    intro sys h
    simp only [run]
    exact ih _ (step_preserves_roster sys e h)

/-- Claim C9: after any finite sequence of events (connects, joins, leave
envelopes, closes, resets, spins, timer firings) with all durable writes
succeeding, reloading the room from the durable store with the
constructor's defaults reproduces exactly the in-memory roster — same
ids, same order, same names — with no reference to live sessions. -/
theorem roster_roundTrip (evs : List Ev) :
    (loadRoom (run initSys evs).1.store).users = (run initSys evs).1.room.users :=
  run_preserves_roster evs initSys rfl

/-- Claim C10: a join that starts the game (roster reaching 4 with no
game in progress) resets `revealedHistory` to empty as a side effect of
`startGame`, so revealed history never survives a stop/restart cycle. -/
theorem startGame_clears_history (sys : Sys) (ws : Nat) (u : String)
    (hu : u ≠ "") (hg : sys.room.gameInProgress = false)
    (hlen : 3 ≤ sys.room.users.length) :
    (joinOp true sys ws u).1.room.revealedUsers = [] ∧
    (joinOp true sys ws u).1.room.gameInProgress = true := by
  have h4 : 4 ≤ sys.room.users.length + 1 := by omega
  simp [joinOp, hu, hg, List.length_append, h4]

/-- Claim C10, witness: a fourth join into a room with leftover revealed
history clears that history while starting the game. -/
theorem startGame_clears_history_witness :
    (joinOp true sysW 3 "d").1.room.revealedUsers = [] ∧
    (joinOp true sysW 3 "d").1.room.gameInProgress = true :=
  startGame_clears_history sysW 3 "d" (by decide) (by decide) (by decide)

/-- Claim C5, witness: the amended theorem applied to the four-player
room. -/
theorem clearPlayers_hard_reset_witness :
    (clearPlayersOp true sys4).1.room.users = [] ∧
    (clearPlayersOp true sys4).2 =
      [Msg.gameReset "All players have been cleared from the game"] :=
  ⟨(clearPlayers_hard_reset sys4).1, (clearPlayers_hard_reset sys4).2.2.2.2.1⟩

/-- Claim C9, witness: the round trip at the concrete four-join run. -/
theorem roster_roundTrip_witness :
    (loadRoom (run initSys evs4).1.store).users = (run initSys evs4).1.room.users :=
  roster_roundTrip evs4
